import Mathlib

/-!
Verification of the chat glue layer of `chatbot_web_V1`
(`chatbot_logic.py`, `ChatBot_beta.py`) against its specification.

The embedding models the Python modules shallowly:

* File input/output is modelled by an explicit `FileState` value threaded
  through the functions that touch the history file.  The external `json`
  library is modelled at the level of parsed values: a present file either
  parses to a `Json` value, is `corrupt` (UTF-8 text on which `json.load`
  raises `JSONDecodeError`), or is `undecodable` (raw bytes that are not
  valid UTF-8, on which reading the text handle raises
  `UnicodeDecodeError`).
* The external `google.generativeai` library keeps one module-global
  credential (`genai.configure`); it is modelled as an explicit
  `Option String` passed in and returned by `GeminiChatService.init`.
* The remote chat session object is modelled by the history it was seeded
  with; the streaming exchange of the Streamlit handler is modelled by a
  `StreamOutcome` describing what the remote stream delivered before
  completing or raising.
* Exceptions become `Except` results.
-/

/-- JSON values, as produced by `json.load` / consumed by `json.dump`.
Objects keep their key-value pairs in insertion order, matching Python
dicts and `json.dump` with default `sort_keys=False`. -/
inductive Json where
  | null : Json
  | bool (b : Bool) : Json
  | num (n : Int) : Json
  | str (s : String) : Json
  | arr (elems : List Json) : Json
  | obj (fields : List (String × Json)) : Json

/-- State of the backing history file.  `absent`: no file.
`undecodable`: a present file whose raw bytes are not valid UTF-8, so
reading the `encoding='utf-8'` handle inside `json.load` raises
`UnicodeDecodeError`.  `corrupt`: a present file that decodes as UTF-8
text but on which `json.load` raises `JSONDecodeError`.  `json v`: a
present file whose content parses to `v`. -/
inductive FileState where
  | absent : FileState
  | undecodable : FileState
  | corrupt : FileState
  | json (v : Json) : FileState

/-- The exception `ChatHistoryManager.load` can propagate:
`UnicodeDecodeError` is a `ValueError` but not a `json.JSONDecodeError`
subclass, so `except (json.JSONDecodeError, FileNotFoundError)` does not
catch it. -/
inductive LoadError where
  | unicodeDecodeError : LoadError
deriving DecidableEq, Repr

/-- A fully received conversation turn as handed to
`ChatHistoryManager.save`: a Gemini `Content` object with a `role` and a
list of parts, each carrying a text. -/
structure Content where
  role : String
  parts : List String
deriving DecidableEq, Repr

namespace ChatHistoryManager

/-- `ChatHistoryManager.load`: if the file exists, open it as UTF-8 text
and parse it with `json.load`, returning the parsed value.  An absent
file skips the body; a caught `JSONDecodeError` falls through; both end
at `return []`.  A present file whose bytes are not valid UTF-8 makes
the read inside `json.load` raise `UnicodeDecodeError`, which the
except clause does not catch, so `load` propagates it. -/
def load (fs : FileState) : Except LoadError Json :=
  match fs with
  | .absent => .ok (.arr [])
  | .undecodable => .error .unicodeDecodeError
  | .corrupt => .ok (.arr [])
  | .json v => .ok v

/-- One element of `serializable_history` in `ChatHistoryManager.save`:
`{'role': msg.role, 'parts': [part.text for part in msg.parts]}`. -/
def encodeTurn (msg : Content) : Json :=
  .obj [("role", .str msg.role), ("parts", .arr (msg.parts.map .str))]

/-- The whole `serializable_history` list built by `save`. -/
def encodeHistory (history : List Content) : Json :=
  .arr (history.map encodeTurn)

/-- `ChatHistoryManager.save`: returns without touching the file when
`history` is empty, otherwise rewrites the file with the serialized
history (`json.dump`, full rewrite of the opened-for-write file). -/
def save (history : List Content) (fs : FileState) : FileState :=
  if history.isEmpty then fs
  else .json (encodeHistory history)

/-- `ChatHistoryManager.clear`: opens the file for writing and writes the
literal text `[]`, which is the JSON empty array. -/
def clear (_fs : FileState) : FileState :=
  .json (.arr [])

/-- Reads a list of part texts back out of their JSON encoding; `none` on
any element that is not a JSON string. -/
def decodeParts : List Json → Option (List String)
  | [] => some []
  | Json.str t :: rest => (decodeParts rest).map (t :: ·)
  | _ => none

/-- Reads a persisted turn back as role plus part texts (the inverse
direction of `encodeTurn`, used to state role/content equality of the
round trip). -/
def decodeTurn (j : Json) : Option Content :=
  match j with
  | .obj [("role", .str r), ("parts", .arr ps)] => (decodeParts ps).map (Content.mk r)
  | _ => none

/-- Reads a list of persisted turns back; `none` on any malformed one. -/
def decodeTurnList : List Json → Option (List Content)
  | [] => some []
  | j :: rest =>
    match decodeTurn j with
    | some t => (decodeTurnList rest).map (t :: ·)
    | none => none

/-- Reads a whole persisted history back as roles plus part texts. -/
def decodeHistory (j : Json) : Option (List Content) :=
  match j with
  | .arr elems => decodeTurnList elems
  | _ => none

end ChatHistoryManager

/-- Errors raised by `GeminiChatService`. -/
inductive ChatError where
  /-- `ValueError`: no API key supplied and none in the environment. -/
  | missingApiKey : ChatError
  /-- `RuntimeError("聊天會話尚未開始。請先呼叫 start_chat。")`: `send_message`
  called before `start_chat` — the spec's `SessionNotStartedError`. -/
  | sessionNotStarted : ChatError
deriving DecidableEq, Repr

/-- The live chat session object returned by `model.start_chat`: modelled
by the history it was seeded with (a raw value: the service performs no
validation of the turns it is given). -/
structure ChatSessionState where
  history : Json

/-- `GeminiChatService` instance state: the model name bound at
construction and the optional live chat session (`None` until
`start_chat`). -/
structure GeminiChatService where
  modelName : String
  chat : Option ChatSessionState

namespace GeminiChatService

/-- Python truthiness of the optional `api_key` string: `None` and the
empty string are falsy. -/
def falsyKey (k : Option String) : Bool :=
  match k with
  | none => true
  | some s => s.isEmpty

/-- The key `__init__` resolves: the explicit argument when truthy,
otherwise `os.getenv("GOOGLE_API_KEY")`. -/
def resolveKey (apiKey env : Option String) : Option String :=
  if falsyKey apiKey then env else apiKey

/-- `GeminiChatService.__init__`: resolves the key (explicit argument,
else environment), raises `ValueError` when neither yields a truthy
string, otherwise calls `genai.configure(api_key=...)` — overwriting the
module-global credential `globalKey` — builds the model object and leaves
`chat = None`.  Returns the new instance together with the new value of
the module-global credential. -/
def init (modelName : String) (apiKey env _globalKey : Option String) :
    Except ChatError (GeminiChatService × Option String) :=
  let key := resolveKey apiKey env
  if falsyKey key then .error .missingApiKey
  else .ok (⟨modelName, none⟩, key)

/-- `GeminiChatService.start_chat`: replaces any prior session with a
fresh one seeded with the given history. -/
def start_chat (svc : GeminiChatService) (history : Json) : GeminiChatService :=
  { svc with chat := some ⟨history⟩ }

/-- The remote call `self.chat.send_message(message, stream=stream)`
would issue; returned unevaluated because the model stops at the process
boundary. -/
structure RemoteSend where
  message : String
  stream : Bool
deriving DecidableEq, Repr

/-- `GeminiChatService.send_message`: raises `RuntimeError` when no chat
session has been started, otherwise forwards the message to the remote
session.  No remote exchange happens in the error case. -/
def send_message (svc : GeminiChatService) (message : String)
    (stream : Bool := true) : Except ChatError RemoteSend :=
  match svc.chat with
  | none => .error .sessionNotStarted
  | some _ => .ok ⟨message, stream⟩

/-- `GeminiChatService.get_history`: the session's history, or an empty
list when no session exists. -/
def get_history (svc : GeminiChatService) : Json :=
  match svc.chat with
  | none => .arr []
  | some c => c.history

end GeminiChatService

/-- The state `ChatController` acts on: the history file on disk and the
chat service.  The GUI collaborator only receives display calls from the
controller; it holds no state the verified claims mention. -/
structure AppState where
  file : FileState
  svc : GeminiChatService

namespace ChatController

/-- `ChatController.start_application`: loads the persisted history and
seeds the chat session with it, unvalidated; an exception escaping
`load` propagates and the session is left untouched.  (The subsequent
loop only displays each loaded message on the GUI; it does not change
state.) -/
def start_application (s : AppState) : Except LoadError AppState :=
  match ChatHistoryManager.load s.file with
  | .ok history => .ok { s with svc := s.svc.start_chat history }
  | .error e => .error e

/-- `ChatController.clear_history`: clears the history file, then resets
the chat session to one seeded with the empty history. -/
def clear_history (s : AppState) : AppState :=
  { file := ChatHistoryManager.clear s.file,
    svc := s.svc.start_chat (.arr []) }

/-- `ChatController.on_closing`: saves the current session history.
Modelled for completeness; `get_history` yields raw JSON while `save`
consumes `Content` objects, so the decoded turns are what gets saved. -/
def on_closing (turns : List Content) (s : AppState) : AppState :=
  { s with file := ChatHistoryManager.save turns s.file }

end ChatController

/-! ## The Streamlit front-end `ChatBot_beta.py`

The module-level script blocks below act on `st.session_state`; each is
modelled as a pure step function on the relevant slice of that state. -/

/-- One record of `st.session_state.messages`:
`{"role": ..., "content": ...}`. -/
structure Msg where
  role : String
  content : String
deriving DecidableEq, Repr

/-- No two consecutive roles are equal (the transcript alternation
invariant of the spec, applied to the role sequence). -/
def alternates : List String → Bool
  | [] => true
  | [_] => true
  | a :: b :: rest => (a != b) && alternates (b :: rest)

/-- The alternation invariant on a message list. -/
def msgAlternates (msgs : List Msg) : Bool :=
  alternates (msgs.map Msg.role)

/-- What consuming the response stream inside the handler's `try` block
yielded.  Each element is the chunk's `.text` when the chunk has a `text`
attribute, `none` otherwise.  `ok chunks`: the stream was consumed to
exhaustion.  `raised chunks`: `send_message` or the iteration raised an
exception (for instance a transport failure) after delivering `chunks`. -/
inductive StreamOutcome where
  | ok (chunks : List (Option String))
  | raised (chunks : List (Option String))

/-- `full_response` as accumulated by the handler's `for chunk in
response_stream` loop: concatenation of the texts of the chunks that have
a `text` attribute. -/
def fullResponse (chunks : List (Option String)) : String :=
  chunks.foldl (fun acc c => match c with | some t => acc ++ t | none => acc) ""

/-- The transcript right before the handler calls
`chat_service.send_message`: the user's turn has already been appended to
`st.session_state.messages`. -/
def transcriptBeforeSend (msgs : List Msg) (prompt : String) : List Msg :=
  msgs ++ [⟨"user", prompt⟩]

/-- The chat-input handler of `ChatBot_beta.py` (the
`if prompt := st.chat_input(...)` block; it runs only for a non-empty
prompt): appends the user turn, then runs the exchange inside `try`.  On
exhaustion it appends the model turn carrying `full_response`; when the
exchange raises, the `except` branch only calls `st.error`, so the
partial model turn is never appended. -/
def handleChatInput (msgs : List Msg) (prompt : String)
    (outcome : StreamOutcome) : List Msg :=
  match outcome with
  | .ok chunks => transcriptBeforeSend msgs prompt ++ [⟨"model", fullResponse chunks⟩]
  | .raised _ => transcriptBeforeSend msgs prompt

/-- The slice of `st.session_state` the sidebar credential block touches,
plus a ghost counter of remote validation round-trips
(`list(genai.list_models())` calls). -/
structure SidebarState where
  key_valid : Bool
  last_checked_key : Option String
  api_key : Option String
  validationCalls : Nat
deriving DecidableEq, Repr

/-- `st.session_state` after the two initialization `if`s: `key_valid`
is `False`, `last_checked_key` is `None`, no `api_key` entry. -/
def SidebarState.initial : SidebarState :=
  ⟨false, none, none, 0⟩

/-- The sidebar credential-validation block of `ChatBot_beta.py`
(one script rerun).  `validKeys` models which stripped keys the remote
`list_models` call accepts.  Validation runs when the confirm button was
pressed, or when the entered string is truthy and differs from
`last_checked_key`; it records the raw string as `last_checked_key`,
performs one remote round-trip, and on success caches the stripped key in
`api_key`.  The trailing `if` re-fills `api_key` when it is missing while
the key is valid and the input truthy. -/
def credentialBlock (s : SidebarState) (submit_btn : Bool)
    (apiKeyInput : String) (validKeys : String → Bool) : SidebarState :=
  let s₁ :=
    if submit_btn || (!apiKeyInput.isEmpty && some apiKeyInput != s.last_checked_key) then
      let s' := { s with last_checked_key := some apiKeyInput,
                         validationCalls := s.validationCalls + 1 }
      if validKeys apiKeyInput.trim then
        { s' with key_valid := true, api_key := some apiKeyInput.trim }
      else
        { s' with key_valid := false }
    else s
  if s₁.key_valid && !apiKeyInput.isEmpty && s₁.api_key == none then
    { s₁ with api_key := some apiKeyInput.trim }
  else s₁

/-- Record shape the spec prescribes for one persisted turn: an object
whose `role` field holds `"user"` or `"model"` and whose `content` field
holds a string.  Read generously — field order and extra fields are
ignored.  This follows the spec's words, to be compared with what `save`
actually writes. -/
def specRecordShape (j : Json) : Bool :=
  match j with
  | .obj fields =>
    (fields.any fun f => f.1 == "role" &&
        (match f.2 with | .str r => r == "user" || r == "model" | _ => false)) &&
    (fields.any fun f => f.1 == "content" &&
        (match f.2 with | .str _ => true | _ => false))
  | _ => false

/-- A persisted history of two consecutive `user` turns, exactly as
`save` would have written it. -/
def badHistoryJson : Json :=
  ChatHistoryManager.encodeHistory [⟨"user", ["a"]⟩, ⟨"user", ["b"]⟩]

/-! ## Helper lemmas -/

theorem decodeParts_map_str (parts : List String) :
    ChatHistoryManager.decodeParts (parts.map Json.str) = some parts := by
  induction parts with
  | nil => rfl
  | cons a as ih => simp [ChatHistoryManager.decodeParts, ih]

theorem decodeTurn_encodeTurn (msg : Content) :
    ChatHistoryManager.decodeTurn (ChatHistoryManager.encodeTurn msg) = some msg := by
  cases msg with
  | mk r parts =>
    simp [ChatHistoryManager.encodeTurn, ChatHistoryManager.decodeTurn, decodeParts_map_str]

theorem decodeTurnList_map_encodeTurn (h : List Content) :
    ChatHistoryManager.decodeTurnList (h.map ChatHistoryManager.encodeTurn) = some h := by
  induction h with
  | nil => rfl
  | cons a as ih =>
    simp [ChatHistoryManager.decodeTurnList, decodeTurn_encodeTurn, ih]

theorem isEmpty_false_of_ne_nil {α : Type} {l : List α} (h : l ≠ []) :
    l.isEmpty = false := by
  cases l with
  | nil => exact absurd rfl h
  | cons a as => rfl

theorem init_ok_iff (mn : String) (ak env g : Option String)
    (svc : GeminiChatService) (g' : Option String) :
    GeminiChatService.init mn ak env g = .ok (svc, g') ↔
      (GeminiChatService.falsyKey (GeminiChatService.resolveKey ak env) = false ∧
       svc = ⟨mn, none⟩ ∧ g' = GeminiChatService.resolveKey ak env) := by
  by_cases hf : GeminiChatService.falsyKey (GeminiChatService.resolveKey ak env) = true
  · simp [GeminiChatService.init, hf]
  · simp only [GeminiChatService.init, Bool.not_eq_true] at hf ⊢
    simp [hf, Prod.ext_iff, and_comm, eq_comm]

/-! ## Claim theorems -/

/-- C1: when the remote exchange raises (for instance a transport
failure) after delivering some chunks, the chat-input handler leaves the
transcript exactly as it was before the `send_message` call — the partial
model turn built from the delivered chunks is not appended — and the
alternation invariant that held before the call still holds after it. -/
theorem failed_stream_not_committed (msgs : List Msg) (prompt : String)
    (delivered : List (Option String)) (_hp : prompt ≠ "") :
    handleChatInput msgs prompt (.raised delivered) = transcriptBeforeSend msgs prompt ∧
    (msgAlternates (transcriptBeforeSend msgs prompt) = true →
      msgAlternates (handleChatInput msgs prompt (.raised delivered)) = true) :=
  ⟨rfl, fun h => h⟩

/-- C1 witness: failing after one delivered chunk leaves only the user
turn committed. -/
theorem failed_stream_not_committed_witness :
    ("hi" : String) ≠ "" ∧
    handleChatInput [] "hi" (.raised [some "par"]) = transcriptBeforeSend [] "hi" ∧
    msgAlternates (handleChatInput [] "hi" (.raised [some "par"])) = true :=
  ⟨by decide,
   (failed_stream_not_committed [] "hi" [some "par"] (by decide)).1,
   (failed_stream_not_committed [] "hi" [some "par"] (by decide)).2 (by decide)⟩

/-- C2 counterexample: a persisted history of two consecutive `user`
turns violates the alternation invariant, yet `start_application`
installs exactly this sequence as the session's transcript — `load`
performs no rejection. -/
theorem load_installs_violating_history :
    alternates (((ChatHistoryManager.decodeHistory badHistoryJson).getD []).map
        Content.role) = false ∧
    ChatController.start_application
        ⟨.json badHistoryJson, ⟨"gemini-1.5-flash", none⟩⟩ =
      .ok ⟨.json badHistoryJson, ⟨"gemini-1.5-flash", some ⟨badHistoryJson⟩⟩⟩ :=
  ⟨rfl, rfl⟩

/-- C2 amended: loading performs no alternation validation — whenever
`load` returns a sequence, violating or not, `start_application`
installs it unchanged as the session's transcript; when `load` raises,
the exception propagates unchanged and no transcript is installed. -/
theorem start_application_installs_loaded_history (fs : FileState)
    (svc : GeminiChatService) :
    ChatController.start_application ⟨fs, svc⟩ =
      (ChatHistoryManager.load fs).map fun v => ⟨fs, svc.start_chat v⟩ := by
  cases fs <;> rfl

/-- C3 counterexample: a present file whose raw bytes are not valid
UTF-8 has content that is not valid structured data, yet `load` does not
return the empty sequence there — it raises `UnicodeDecodeError`, which
the except clause (catching only `JSONDecodeError` and
`FileNotFoundError`) lets propagate. -/
theorem load_raises_on_undecodable_file :
    ChatHistoryManager.load .undecodable = .error .unicodeDecodeError :=
  rfl

/-- C3 amended: `load` on an absent file, and `load` on a present file
whose content is valid UTF-8 text but not valid JSON, both return the
empty sequence without raising; on a present file whose bytes are not
valid UTF-8, `load` instead raises `UnicodeDecodeError`. -/
theorem load_missing_or_malformed_returns_empty :
    ChatHistoryManager.load .absent = .ok (.arr []) ∧
    ChatHistoryManager.load .corrupt = .ok (.arr []) ∧
    ChatHistoryManager.load .undecodable = .error .unicodeDecodeError :=
  ⟨rfl, rfl, rfl⟩

/-- C4: for every non-empty history — non-ASCII part texts included —
`save` followed by `load` raises nothing and yields a persisted value
that decodes back to exactly the original roles and texts, whatever the
prior file state. -/
theorem save_load_roundtrip (h : List Content) (fs : FileState) (hne : h ≠ []) :
    (ChatHistoryManager.load (ChatHistoryManager.save h fs)).map
      ChatHistoryManager.decodeHistory = .ok (some h) := by
  simp [ChatHistoryManager.save, isEmpty_false_of_ne_nil hne,
        ChatHistoryManager.load, Except.map, ChatHistoryManager.encodeHistory,
        ChatHistoryManager.decodeHistory, decodeTurnList_map_encodeTurn]

/-- C4 witness: a one-turn history with non-ASCII content round-trips. -/
theorem save_load_roundtrip_witness :
    ([⟨"user", ["你好，世界"]⟩] : List Content) ≠ [] ∧
    (ChatHistoryManager.load
      (ChatHistoryManager.save [⟨"user", ["你好，世界"]⟩] .absent)).map
        ChatHistoryManager.decodeHistory = .ok (some [⟨"user", ["你好，世界"]⟩]) :=
  ⟨by simp, save_load_roundtrip [⟨"user", ["你好，世界"]⟩] .absent (by simp)⟩

/-- C5 counterexample: for the one-turn history `user`/`"hi"`, `save`
writes the record `{"role": "user", "parts": ["hi"]}`; that record does
not have the claimed shape `{role, content: string}` — it has no
`content` field at all. -/
theorem save_record_shape_counterexample :
    ChatHistoryManager.save [⟨"user", ["hi"]⟩] .absent =
      .json (.arr [.obj [("role", .str "user"), ("parts", .arr [.str "hi"])]]) ∧
    specRecordShape (.obj [("role", .str "user"), ("parts", .arr [.str "hi"])]) =
      false :=
  ⟨rfl, rfl⟩

/-- C5 amended: for every non-empty history, `save` writes the file as a
sequence of records `{"role": the turn's role, "parts": the list of its
part texts}`, one record per turn in conversation order, and the result
is a full rewrite independent of the prior file state. -/
theorem save_writes_role_parts_records (h : List Content) (fs fs' : FileState)
    (hne : h ≠ []) :
    ChatHistoryManager.save h fs =
      .json (.arr (h.map fun msg =>
        .obj [("role", .str msg.role), ("parts", .arr (msg.parts.map .str))])) ∧
    ChatHistoryManager.save h fs = ChatHistoryManager.save h fs' := by
  simp [ChatHistoryManager.save, isEmpty_false_of_ne_nil hne,
        ChatHistoryManager.encodeHistory, ChatHistoryManager.encodeTurn]

/-- C5 amended witness: a concrete two-turn history written over a
corrupt file. -/
theorem save_writes_role_parts_records_witness :
    ([⟨"user", ["hi"]⟩, ⟨"model", ["yo"]⟩] : List Content) ≠ [] ∧
    ChatHistoryManager.save [⟨"user", ["hi"]⟩, ⟨"model", ["yo"]⟩] .corrupt =
      .json (.arr [.obj [("role", .str "user"), ("parts", .arr [.str "hi"])],
                   .obj [("role", .str "model"), ("parts", .arr [.str "yo"])]]) :=
  ⟨by simp,
   by
    have := (save_writes_role_parts_records
      [⟨"user", ["hi"]⟩, ⟨"model", ["yo"]⟩] .corrupt .absent (by simp)).1
    simpa using this⟩

/-- C6 counterexample: pressing the confirm button twice with the
identical key `"k"` performs two remote validation round-trips, not
exactly one — the cached result is bypassed whenever `submit_btn` is
set. -/
theorem credential_revalidated_on_submit :
    (credentialBlock (credentialBlock SidebarState.initial true "k" (fun _ => true))
        true "k" (fun _ => true)).validationCalls = 2 :=
  rfl

/-- C6 amended: the validity result is cached against the exact entered
string, and a rerun without the confirm button pressed whose input equals
`last_checked_key` performs no validation round-trip; pressing the
confirm button performs a round-trip even for the identical cached
string. -/
theorem credential_cache_behavior (s : SidebarState) (k : String)
    (validKeys : String → Bool) (h : s.last_checked_key = some k) :
    (credentialBlock s false k validKeys).validationCalls = s.validationCalls ∧
    (credentialBlock s true k validKeys).validationCalls = s.validationCalls + 1 := by
  constructor
  · by_cases hv : (s.key_valid && !k.isEmpty && (s.api_key == none)) = true
    · simp [credentialBlock, h, hv]
    · simp [credentialBlock, h, hv]
  · by_cases hv : validKeys k.trim = true
    · simp [credentialBlock, hv]
    · simp [credentialBlock, hv]

/-- C6 amended witness: after one validated entry of `"k"`, a rerun with
the same string and no button press leaves the round-trip count
unchanged. -/
theorem credential_cache_behavior_witness :
    (credentialBlock SidebarState.initial true "k" (fun _ => true)).last_checked_key =
      some "k" ∧
    (credentialBlock (credentialBlock SidebarState.initial true "k" (fun _ => true))
        false "k" (fun _ => true)).validationCalls =
      (credentialBlock SidebarState.initial true "k" (fun _ => true)).validationCalls :=
  ⟨rfl,
   (credential_cache_behavior (credentialBlock SidebarState.initial true "k"
      (fun _ => true)) "k" (fun _ => true) rfl).1⟩

/-- C7: `send_message` on a freshly constructed service — one on which
`start_chat` has never been called — fails with the session-not-started
error and constructs no remote call; after `start_chat` it returns the
remote call for every message, never that error. -/
theorem send_message_requires_start_chat (mn : String) (ak env g g' : Option String)
    (svc : GeminiChatService) (msg : String) (b : Bool) (history : Json)
    (h : GeminiChatService.init mn ak env g = .ok (svc, g')) :
    svc.send_message msg b = .error .sessionNotStarted ∧
    (svc.start_chat history).send_message msg b = .ok ⟨msg, b⟩ := by
  obtain ⟨-, hsvc, -⟩ := (init_ok_iff mn ak env g svc g').mp h
  subst hsvc
  exact ⟨rfl, rfl⟩

/-- C7 witness: a concrete fresh service rejects a send, and accepts it
once a chat has been started. -/
theorem send_message_requires_start_chat_witness :
    GeminiChatService.init "gemini-1.5-flash" (some "k") none none =
      .ok (⟨"gemini-1.5-flash", none⟩, some "k") ∧
    GeminiChatService.send_message ⟨"gemini-1.5-flash", none⟩ "hello" true =
      .error .sessionNotStarted ∧
    (GeminiChatService.start_chat ⟨"gemini-1.5-flash", none⟩ (.arr [])).send_message
      "hello" true = .ok ⟨"hello", true⟩ :=
  ⟨rfl,
   (send_message_requires_start_chat "gemini-1.5-flash" (some "k") none none
      (some "k") ⟨"gemini-1.5-flash", none⟩ "hello" true (.arr []) rfl).1,
   (send_message_requires_start_chat "gemini-1.5-flash" (some "k") none none
      (some "k") ⟨"gemini-1.5-flash", none⟩ "hello" true (.arr []) rfl).2⟩

/-- C8: saving an empty history is a no-op — for every prior file state,
including one already holding a non-empty serialized transcript, the file
is unchanged. -/
theorem save_empty_is_noop (fs : FileState) :
    ChatHistoryManager.save [] fs = fs :=
  rfl

/-- C9: `clear_history` twice equals `clear_history` once, and after it
the session transcript is the empty sequence while the backing file still
exists (it is overwritten with the empty JSON array, never deleted). -/
theorem clear_history_idempotent (s : AppState) :
    ChatController.clear_history (ChatController.clear_history s) =
      ChatController.clear_history s ∧
    (ChatController.clear_history s).svc.chat = some ⟨.arr []⟩ ∧
    (ChatController.clear_history s).file = .json (.arr []) ∧
    (ChatController.clear_history s).file ≠ .absent :=
  ⟨rfl, rfl, rfl, by simp [ChatController.clear_history, ChatHistoryManager.clear]⟩

/-- C10: a successful construction sets the module-global credential to
the key it resolved — the explicit argument when truthy, otherwise the
environment variable — independently of the previous global value, and a
subsequent successful construction overwrites it again with its own
resolved key; the single global is what every instance uses. -/
theorem init_overwrites_global_key (mn : String) (ak env g : Option String)
    (svc : GeminiChatService) (g' : Option String)
    (h : GeminiChatService.init mn ak env g = .ok (svc, g')) :
    g' = GeminiChatService.resolveKey ak env ∧
    (∀ g₂, GeminiChatService.init mn ak env g₂ = .ok (svc, g')) ∧
    (∀ (mn₂ : String) (ak₂ env₂ : Option String) (svc₂ : GeminiChatService)
        (g₂' : Option String),
      GeminiChatService.init mn₂ ak₂ env₂ g' = .ok (svc₂, g₂') →
      g₂' = GeminiChatService.resolveKey ak₂ env₂) := by
  obtain ⟨hf, hsvc, hg⟩ := (init_ok_iff mn ak env g svc g').mp h
  refine ⟨hg, fun g₂ => (init_ok_iff mn ak env g₂ svc g').mpr ⟨hf, hsvc, hg⟩,
    fun mn₂ ak₂ env₂ svc₂ g₂' h₂ => ?_⟩
  exact ((init_ok_iff mn₂ ak₂ env₂ g' svc₂ g₂').mp h₂).2.2

/-- C10 witness: constructing with explicit key `"k1"` over a stale
global `"old"` leaves the global at `"k1"`, the resolved key. -/
theorem init_overwrites_global_key_witness :
    GeminiChatService.init "m" (some "k1") none (some "old") =
      .ok (⟨"m", none⟩, some "k1") ∧
    (some "k1" : Option String) = GeminiChatService.resolveKey (some "k1") none :=
  ⟨rfl,
   (init_overwrites_global_key "m" (some "k1") none (some "old")
      ⟨"m", none⟩ (some "k1") rfl).1⟩
